import Mathlib

/-!
Shallow embedding of the task-manager application's route handlers and
request gatekeeper, with theorems checking the specification's claims.

Conventions of the embedding:
- JSON field values destructured from a request body are modelled as
  `Option (Option String)` (`JStr`): `none` is an absent key
  (JavaScript `undefined`), `some none` is JSON `null`, `some (some s)`
  is a string value.
- The database is a record of lists of rows; `.single()` lookups become
  `List.find?`, inserts cons a row, updates map over the rows, deletes
  filter them.  Check constraints of the schema (`status`, `priority`)
  are applied at insert/update time; a violated constraint makes the
  query fail, which the handlers surface as HTTP 500.
- Timestamps compared via `new Date(a) < new Date(b)` are modelled as
  integers.
- A handler returns its HTTP status code together with the database
  state after the request.
-/

namespace TaskManager

/-- A JSON body field as seen after destructuring: `none` = absent
(`undefined`), `some none` = `null`, `some (some s)` = string `s`. -/
abbrev JStr := Option (Option String)

/-- Characters removed by JavaScript's `String.prototype.trim`
(whitespace and line terminators; the ASCII ones suffice here). -/
def jsWhitespace (c : Char) : Bool :=
  c = ' ' || c = '\t' || c = '\n' || c = '\r' || c = '\x0c' || c = '\x0b'

/-- `s.trim()`: strip leading and trailing whitespace. -/
def jsTrim (s : String) : String :=
  String.mk (((s.data.dropWhile jsWhitespace).reverse.dropWhile jsWhitespace).reverse)

/-- ASCII lowercasing of one character. -/
def lowerChar (c : Char) : Char :=
  if 65 ≤ c.toNat && c.toNat ≤ 90 then Char.ofNat (c.toNat + 32) else c

/-- Case folding used by the case-insensitive email match. -/
def lowerStr (s : String) : String :=
  String.mk (s.data.map lowerChar)

/-- `path.startsWith(prefixStr)`. -/
def jsStartsWith (path prefixStr : String) : Bool :=
  prefixStr.data.isPrefixOf path.data

/-- JavaScript truthiness of such a field: only a non-empty string is
truthy (`undefined`, `null` and `""` are falsy). -/
def jsTruthy (v : JStr) : Bool :=
  match v with
  | some (some s) => s ≠ ""
  | _ => false

/-- `v || d` for a string-valued field: falsy values fall back to the
default.  Models `status || "todo"` and `priority || "medium"`. -/
def jsOrDefault (v : JStr) (d : String) : String :=
  match v with
  | some (some s) => if s = "" then d else s
  | _ => d

/-- `v || null` for a string-valued field: models `due_date || null`
and `category || null` in the create handler. -/
def jsOrNull (v : JStr) : Option String :=
  match v with
  | some (some s) => if s = "" then none else some s
  | _ => none

/-- `v?.trim() || null`: models the description normalisation.  A
missing or `null` value, or a string that trims to empty, becomes
`null`; otherwise the trimmed string is kept. -/
def jsTrimOrNull (v : Option String) : Option String :=
  match v with
  | none => none
  | some s => if jsTrim s = "" then none else some (jsTrim s)

/-- Allowed values of the `status` column (`CHECK (status IN
('todo','in_progress','completed'))`); the column is nullable. -/
def statusOk (v : Option String) : Bool :=
  match v with
  | none => true
  | some s => s = "todo" || s = "in_progress" || s = "completed"

/-- Allowed values of the `priority` column (`CHECK (priority IN
('low','medium','high','urgent'))`); the column is nullable. -/
def priorityOk (v : Option String) : Bool :=
  match v with
  | none => true
  | some s => s = "low" || s = "medium" || s = "high" || s = "urgent"

/-- A row of `profiles`. -/
structure Profile where
  id : String
  email : String
  full_name : Option String
deriving Repr, DecidableEq

/-- A row of `tasks` (the columns the route handlers read or write). -/
structure Task where
  id : String
  user_id : String
  title : String
  description : Option String
  status : Option String
  priority : Option String
  due_date : Option String
  category : Option String
deriving Repr, DecidableEq

/-- A row of `task_shares`. -/
structure Share where
  id : String
  task_id : String
  shared_with_user_id : String
  shared_by_user_id : String
deriving Repr, DecidableEq

/-- A row of `comments` (fields relevant to the fetch-one join). -/
structure Comment where
  id : String
  task_id : String
  user_id : String
  content : String
deriving Repr, DecidableEq

/-- A row of `attachments` (fields relevant to the fetch-one join). -/
structure Attachment where
  id : String
  task_id : String
  user_id : String
  file_name : String
deriving Repr, DecidableEq

/-- The database state the handlers operate on. -/
structure DB where
  profiles : List Profile
  tasks : List Task
  shares : List Share
  comments : List Comment
  attachments : List Attachment
deriving Repr, DecidableEq

/-- `tasks` lookup by id, as in `.from("tasks").eq("id", taskId).single()`. -/
def findTask (db : DB) (tid : String) : Option Task :=
  db.tasks.find? (fun r => r.id == tid)

/-- Existence of a share row for a (task, user) pair. -/
def hasShare (db : DB) (tid uid : String) : Bool :=
  db.shares.any (fun s => s.task_id == tid && s.shared_with_user_id == uid)

/-! ## Request gatekeeper (`src/middleware.ts`) -/

/-- Outcome of the middleware: redirect to the login page carrying the
original path in the `redirectedFrom` query parameter, redirect to the
default page `/`, or pass the request through unchanged. -/
inductive MwResult where
  | redirectLogin (redirectedFrom : String)
  | redirectHome
  | pass
deriving Repr, DecidableEq

/-- `const publicRoutes = ["/login", "/signup"]`. -/
def publicRoutes : List String := ["/login", "/signup"]

/-- `publicRoutes.some((route) => path.startsWith(route))`. -/
def isPublicRoute (path : String) : Bool :=
  publicRoutes.any (fun route => jsStartsWith path route)

/-- The middleware decision for a request, given whether a session user
was resolved and the request path (static-asset paths are excluded by
the matcher before this function runs). -/
def middleware (hasUser : Bool) (path : String) : MwResult :=
  if !hasUser && !isPublicRoute path then
    .redirectLogin path
  else if hasUser && (path == "/login" || path == "/signup") then
    .redirectHome
  else
    .pass

/-! ## Access helper and fetch-one handler (`src/app/api/tasks/[id]/route.ts`) -/

/-- `canAccessTask`: selects the task with its embedded `task_shares`;
an absent row yields `false`, otherwise the caller must be the owner or
one of the share recipients of that task. -/
def canAccessTask (db : DB) (tid uid : String) : Bool :=
  match findTask db tid with
  | none => false
  | some t =>
      t.user_id == uid ||
        db.shares.any (fun s => s.task_id == tid && s.shared_with_user_id == uid)

/-- The joined payload the GET handler selects: the task row together
with the owner's profile, the task's comments, attachments and shares. -/
structure TaskDetail where
  task : Task
  owner : Option Profile
  comments : List Comment
  attachments : List Attachment
  shares : List Share
deriving Repr, DecidableEq

/-- The join query of the GET handler on a given task id. -/
def getTaskJoin (db : DB) (tid : String) : Option TaskDetail :=
  match findTask db tid with
  | none => none
  | some t =>
      some { task := t
             owner := db.profiles.find? (fun p => p.id == t.user_id)
             comments := db.comments.filter (fun c => c.task_id == tid)
             attachments := db.attachments.filter (fun a => a.task_id == tid)
             shares := db.shares.filter (fun s => s.task_id == tid) }

/-- Outcome of the GET handler: the joined payload, or an error status. -/
inductive GetRes where
  | ok (d : TaskDetail)
  | err (code : Nat)
deriving Repr, DecidableEq

/-- `GET /api/tasks/[id]` for an authenticated caller `uid`: forbidden
when the access check fails, then the join query, whose failure is
surfaced as not-found. -/
def getTask (db : DB) (tid uid : String) : GetRes :=
  if !canAccessTask db tid uid then .err 403
  else
    match getTaskJoin db tid with
    | none => .err 404
    | some d => .ok d

/-! ## Update handler (`src/app/api/tasks/[id]/route.ts`, PATCH) -/

/-- The destructured PATCH body. -/
structure PatchBody where
  title : JStr
  description : JStr
  status : JStr
  priority : JStr
  due_date : JStr
  category : JStr
deriving Repr, DecidableEq

/-- The `updateData.title` computed by the handler when the body's
`title` key is present with a string value. -/
def updTitle (b : PatchBody) : Option String :=
  match b.title with
  | some (some s) => some (jsTrim s)
  | _ => none

/-- `updateData.title && updateData.title === ""`, the handler's
empty-title validation condition, with JavaScript truthiness embedded
as written in the source. -/
def emptyTitleCheck (u : Option String) : Bool :=
  (match u with
   | some s => s ≠ ""
   | none => false) &&
  (match u with
   | some s => s = ""
   | none => false)

/-- Application of the prepared `updateData` to a task row: each field
present in the body (`!== undefined`) overwrites the column, every
other column is kept.  The `title` case assumes the body's title was
not `null` (that case throws before `updateData` is used). -/
def applyUpd (b : PatchBody) (r : Task) : Task :=
  { r with
    title := match b.title with
      | some (some s) => jsTrim s
      | _ => r.title
    description := match b.description with
      | some v => jsTrimOrNull v
      | none => r.description
    status := match b.status with
      | some v => v
      | none => r.status
    priority := match b.priority with
      | some v => v
      | none => r.priority
    due_date := match b.due_date with
      | some v => v
      | none => r.due_date
    category := match b.category with
      | some v => v
      | none => r.category }

/-- The task table after the update query `.update(updateData).eq("id",
taskId)`: every row with the requested id gets the update applied. -/
def updatedTasks (db : DB) (tid : String) (b : PatchBody) : List Task :=
  db.tasks.map (fun r => if r.id == tid then applyUpd b r else r)

/-- `PATCH /api/tasks/[id]` for an authenticated caller `uid`: owner
check (an absent row or a non-owner caller is forbidden), body
destructuring (`title.trim()` on a `null` title throws a `TypeError`,
caught as a 500), the (vacuous) empty-title validation, then the update
query, rejected by the schema's check constraints when the new row's
`status` or `priority` is invalid. -/
def patchTask (db : DB) (tid uid : String) (b : PatchBody) : Nat × DB :=
  match findTask db tid with
  | none => (403, db)
  | some t =>
      if t.user_id ≠ uid then (403, db)
      else
        match b.title with
        | some none => (500, db)
        | _ =>
            if emptyTitleCheck (updTitle b) then (400, db)
            else
              let t' := applyUpd b t
              if statusOk t'.status && priorityOk t'.priority then
                (200, { db with tasks := updatedTasks db tid b })
              else (500, db)

/-! ## Delete handler (`src/app/api/tasks/[id]/route.ts`, DELETE) -/

/-- `DELETE /api/tasks/[id]` for an authenticated caller `uid`: owner
check as in PATCH, then the delete query; the database's `ON DELETE
CASCADE` removes the task's shares, comments and attachments. -/
def deleteTask (db : DB) (tid uid : String) : Nat × DB :=
  match findTask db tid with
  | none => (403, db)
  | some t =>
      if t.user_id ≠ uid then (403, db)
      else
        (200, { db with
                tasks := db.tasks.filter (fun r => r.id ≠ tid)
                shares := db.shares.filter (fun s => s.task_id ≠ tid)
                comments := db.comments.filter (fun c => c.task_id ≠ tid)
                attachments := db.attachments.filter (fun a => a.task_id ≠ tid) })

/-! ## Create handler (`src/app/api/tasks/route.ts`, POST) -/

/-- The destructured POST body. -/
structure CreateBody where
  title : JStr
  description : JStr
  status : JStr
  priority : JStr
  due_date : JStr
  category : JStr
deriving Repr, DecidableEq

/-- The `x?.` step of `description?.trim()`: an absent or `null` field
propagates as missing, a string is passed on. -/
def jsOptStr (v : JStr) : Option String :=
  match v with
  | some (some s) => some s
  | _ => none

/-- The `taskData` row built by the create handler from a body whose
`title` destructured to the string `s`: `status || "todo"`,
`priority || "medium"`, `description?.trim() || null`,
`due_date || null`, `category || null`. -/
def newTaskRow (uid newId : String) (b : CreateBody) (s : String) : Task :=
  { id := newId
    user_id := uid
    title := jsTrim s
    description := jsTrimOrNull (jsOptStr b.description)
    status := some (jsOrDefault b.status "todo")
    priority := some (jsOrDefault b.priority "medium")
    due_date := jsOrNull b.due_date
    category := jsOrNull b.category }

/-- `POST /api/tasks` for an authenticated caller `uid`, the database
assigning `newId` to the inserted row: `!title || title.trim() === ""`
is rejected as invalid input, otherwise `newTaskRow` is inserted, the
insert failing (500) when a check constraint rejects the row. -/
def postTask (db : DB) (uid newId : String) (b : CreateBody) : Nat × DB :=
  match b.title with
  | some (some s) =>
      if jsTrim s = "" then (400, db)
      else
        let t := newTaskRow uid newId b s
        if statusOk t.status && priorityOk t.priority then
          (201, { db with tasks := t :: db.tasks })
        else (500, db)
  | _ => (400, db)

/-! ## Share handler (`src/app/api/tasks/[id]/share/route.ts`, POST) -/

/-- `POST /api/tasks/[id]/share` for an authenticated caller `uid`, the
database assigning `newShareId` on insert: missing email is invalid
input, absent task is not-found, a non-owner caller is forbidden, an
unknown email is not-found, sharing with oneself or a duplicate (task,
user) share is invalid input, otherwise the share row is inserted. -/
def sharePost (db : DB) (tid uid newShareId : String) (userEmail : JStr) :
    Nat × DB :=
  match userEmail with
  | some (some e) =>
      if e = "" then (400, db)
      else
        match findTask db tid with
        | none => (404, db)
        | some t =>
            if t.user_id ≠ uid then (403, db)
            else
              match db.profiles.find? (fun p => p.email == e) with
              | none => (404, db)
              | some target =>
                  if target.id = uid then (400, db)
                  else if hasShare db tid target.id then (400, db)
                  else
                    (201, { db with
                            shares := { id := newShareId
                                        task_id := tid
                                        shared_with_user_id := target.id
                                        shared_by_user_id := uid } :: db.shares })
  | _ => (400, db)

/-! ## User search handler (`src/app/api/users/search/route.ts`) -/

/-- Case-insensitive substring containment, modelling the
`ilike("email", ...)` pattern match for a metacharacter-free query
interpolated between two `%` wildcards. -/
def ilikeContains (hay pat : String) : Bool :=
  decide ((lowerStr pat).data <:+: (lowerStr hay).data)

/-- Outcome of the search handler: status code, the returned profiles,
and whether a backend query was issued. -/
structure SearchRes where
  code : Nat
  users : List Profile
  queried : Bool
deriving Repr, DecidableEq

/-- `GET /api/users/search?q=...` for an authenticated caller `uid`:
a missing or trim-empty `q` returns an empty list without querying;
otherwise the profiles whose email matches `%q%` case-insensitively,
excluding the caller, capped at 10. -/
def usersSearch (db : DB) (uid : String) (q : Option String) : SearchRes :=
  match q with
  | none => { code := 200, users := [], queried := false }
  | some s =>
      if jsTrim s = "" then { code := 200, users := [], queried := false }
      else
        { code := 200
          users := (db.profiles.filter
            (fun p => ilikeContains p.email s && p.id != uid)).take 10
          queried := true }

/-! ## Overdue classification (`src/components/tasks/TaskList.tsx`) -/

/-- `task.due_date && task.status !== "completed" && new Date(task.due_date)
< new Date()`, with timestamps modelled as integers (`none` is a `null`
due date, which is falsy). -/
def isOverdue (due_date : Option Int) (status : String) (now : Int) : Bool :=
  match due_date with
  | none => false
  | some d => status ≠ "completed" && d < now

/-! ## Concrete fixtures used by witnesses and counterexamples -/

/-- A profile fixture: the owner of the sample task. -/
def alice : Profile :=
  { id := "u1", email := "alice@example.com", full_name := some "Alice" }

/-- A profile fixture: a second user. -/
def bob : Profile :=
  { id := "u2", email := "bob@example.com", full_name := some "Bob" }

/-- A task fixture owned by `alice`. -/
def sampleTask : Task :=
  { id := "t1"
    user_id := "u1"
    title := "Old title"
    description := some "d"
    status := some "todo"
    priority := some "low"
    due_date := none
    category := none }

/-- A database fixture: two users, one task, no shares. -/
def sampleDb : DB :=
  { profiles := [alice, bob]
    tasks := [sampleTask]
    shares := []
    comments := []
    attachments := [] }

/-- `sampleDb` with the sample task already shared with `bob`. -/
def sharedDb : DB :=
  { sampleDb with
    shares := [{ id := "s1"
                 task_id := "t1"
                 shared_with_user_id := "u2"
                 shared_by_user_id := "u1" }] }

/-- An empty database fixture. -/
def emptyDb : DB :=
  { profiles := [], tasks := [], shares := [], comments := [], attachments := [] }

/-- A PATCH body with every key absent. -/
def emptyPatch : PatchBody :=
  { title := none, description := none, status := none,
    priority := none, due_date := none, category := none }

/-- A POST body with every key absent. -/
def emptyCreate : CreateBody :=
  { title := none, description := none, status := none,
    priority := none, due_date := none, category := none }

/-! ## Helper lemmas -/

/-- The handler's empty-title validation condition is identically
false: a truthy string is by definition not the empty string. -/
theorem emptyTitleCheck_eq_false (u : Option String) : emptyTitleCheck u = false := by
  cases u with
  | none => rfl
  | some s => by_cases h : s = "" <;> simp [emptyTitleCheck, h]

/-- Applying an update never changes the row's primary key. -/
theorem applyUpd_id (b : PatchBody) (r : Task) : (applyUpd b r).id = r.id := rfl

/-- When the field is falsy, `v || d` yields the default. -/
theorem jsOrDefault_of_falsy (v : JStr) (d : String) (h : jsTruthy v = false) :
    jsOrDefault v d = d := by
  match v with
  | none => rfl
  | some none => rfl
  | some (some s) =>
      simp [jsTruthy] at h
      simp [jsOrDefault, h]

/-- Mapping an id-preserving update over the rows moves `find?` by id
through the update. -/
theorem findTask_map_update (l : List Task) (tid : String) (g : Task → Task)
    (hg : ∀ r, (g r).id = r.id) (t : Task)
    (h : l.find? (fun r => r.id == tid) = some t) :
    (l.map (fun r => if r.id == tid then g r else r)).find?
      (fun r => r.id == tid) = some (g t) := by
  induction l with
  | nil => simp at h
  | cons a l ih =>
      cases ha : (a.id == tid) with
      | true =>
          simp only [List.find?_cons, ha] at h
          have hta : t = a := by
            injection h with h
            exact h.symm
          subst hta
          have hfa : (if (t.id == tid) = true then g t else t) = g t := if_pos ha
          rw [List.map_cons, hfa, List.find?_cons, hg t, ha]
      | false =>
          simp only [List.find?_cons, ha] at h
          have hfa : (if (a.id == tid) = true then g a else a) = a :=
            if_neg (by simp [ha])
          rw [List.map_cons, hfa, List.find?_cons, ha]
          exact ih h

/-! ## Claims -/

/-- C9: a task is classified overdue exactly when it has a due date,
the due date is before the current time, and the status is not
`completed`; a completed task is never overdue. -/
theorem overdue_classification (due : Option Int) (status : String) (now : Int) :
    (isOverdue due status now = true ↔
      ∃ d, due = some d ∧ status ≠ "completed" ∧ d < now) ∧
    (status = "completed" → isOverdue due status now = false) := by
  constructor
  · cases due with
    | none => simp [isOverdue]
    | some d => simp [isOverdue]
  · intro h
    cases due with
    | none => rfl
    | some d => simp [isOverdue, h]

/-- Witness for C9 at a concrete input: a completed task with a past
due date is not overdue. -/
theorem overdue_classification_witness : isOverdue (some 0) "completed" 1 = false :=
  (overdue_classification (some 0) "completed" 1).2 rfl

/-- C10: for an authenticated caller, a path that prefix-matches a
public route but is not exactly `/login` or `/signup` passes through
the gatekeeper unchanged. -/
theorem auth_page_subpath_passthrough (path : String)
    (hpub : isPublicRoute path = true)
    (h1 : path ≠ "/login") (h2 : path ≠ "/signup") :
    middleware true path = .pass := by
  simp [middleware, hpub, h1, h2]

/-- Witness for C10 at a concrete input: `/login/reset` with a session
passes through. -/
theorem auth_page_subpath_passthrough_witness :
    middleware true "/login/reset" = MwResult.pass :=
  auth_page_subpath_passthrough "/login/reset" (by decide) (by decide) (by decide)

/-- C7 counterexample: at path `/login/extra` the gatekeeper passes the
request through, both without a session (the claim's unauthenticated
branch would demand a redirect to login, since the path is not an auth
page) and with one (the claim's authenticated branch, reading auth
pages by prefix, would demand a redirect to the default page). -/
theorem gatekeeper_claim_counterexample :
    (middleware false "/login/extra" = MwResult.pass ∧
      MwResult.pass ≠ MwResult.redirectLogin "/login/extra") ∧
    (middleware true "/login/extra" = MwResult.pass ∧
      MwResult.pass ≠ MwResult.redirectHome) := by
  refine ⟨⟨by decide, by decide⟩, ⟨by decide, by decide⟩⟩

/-- C7 as amended: without a session, a path that does not start with
`/login` or `/signup` is redirected to login carrying the original
path, and one that does start with them passes through; with a
session, exactly `/login` or `/signup` redirects to the default page
and every other path passes through. -/
theorem gatekeeper_decision (hasUser : Bool) (path : String) :
    (hasUser = false → isPublicRoute path = false →
      middleware hasUser path = .redirectLogin path) ∧
    (hasUser = false → isPublicRoute path = true →
      middleware hasUser path = .pass) ∧
    (hasUser = true → (path = "/login" ∨ path = "/signup") →
      middleware hasUser path = .redirectHome) ∧
    (hasUser = true → path ≠ "/login" → path ≠ "/signup" →
      middleware hasUser path = .pass) := by
  refine ⟨?_, ?_, ?_, ?_⟩
  · rintro rfl hp
    simp [middleware, hp]
  · rintro rfl hp
    simp [middleware, hp]
  · rintro rfl hp
    rcases hp with rfl | rfl <;> simp [middleware]
  · rintro rfl h1 h2
    simp [middleware, h1, h2]

/-- Witness for C7 as amended, one concrete input per branch. -/
theorem gatekeeper_decision_witness :
    middleware false "/tasks" = MwResult.redirectLogin "/tasks" ∧
    middleware false "/login/x" = MwResult.pass ∧
    middleware true "/login" = MwResult.redirectHome ∧
    middleware true "/tasks" = MwResult.pass :=
  ⟨(gatekeeper_decision false "/tasks").1 rfl (by decide),
   (gatekeeper_decision false "/login/x").2.1 rfl (by decide),
   (gatekeeper_decision true "/login").2.2.1 rfl (Or.inl rfl),
   (gatekeeper_decision true "/tasks").2.2.2 rfl (by decide) (by decide)⟩

/-- C1: for an existing task, a caller other than the owner receives
forbidden (403) from both the update and the delete handler with the
database unchanged, while the owner's requests never yield 403 and the
owner's delete proceeds to the delete query. -/
theorem owner_only_update_delete (db : DB) (tid uid : String) (b : PatchBody)
    (t : Task) (hfind : findTask db tid = some t) :
    (t.user_id ≠ uid →
      patchTask db tid uid b = (403, db) ∧ deleteTask db tid uid = (403, db)) ∧
    (t.user_id = uid →
      (patchTask db tid uid b).1 ≠ 403 ∧
      deleteTask db tid uid =
        (200, { db with
                tasks := db.tasks.filter (fun r => r.id ≠ tid)
                shares := db.shares.filter (fun s => s.task_id ≠ tid)
                comments := db.comments.filter (fun c => c.task_id ≠ tid)
                attachments := db.attachments.filter (fun a => a.task_id ≠ tid) })) := by
  constructor
  · intro hne
    constructor
    · simp only [patchTask, hfind]
      rw [if_pos hne]
    · simp only [deleteTask, hfind]
      rw [if_pos hne]
  · intro heq
    constructor
    · simp only [patchTask, hfind]
      rw [if_neg (by simp [heq])]
      rcases b.title with _ | (_ | s) <;>
        simp only [emptyTitleCheck_eq_false, Bool.false_eq_true, if_false] <;>
        first
          | (split <;> simp)
          | simp
    · simp only [deleteTask, hfind]
      rw [if_neg (by simp [heq])]

/-- Witness for C1: on the sample database, a non-owner's update and
delete are forbidden and change nothing, and the owner's delete
succeeds. -/
theorem owner_only_update_delete_witness :
    (patchTask sampleDb "t1" "u2" emptyPatch = (403, sampleDb) ∧
      deleteTask sampleDb "t1" "u2" = (403, sampleDb)) ∧
    (patchTask sampleDb "t1" "u1" emptyPatch).1 ≠ 403 :=
  ⟨(owner_only_update_delete sampleDb "t1" "u2" emptyPatch sampleTask
      (by decide)).1 (by decide),
   ((owner_only_update_delete sampleDb "t1" "u1" emptyPatch sampleTask
      (by decide)).2 rfl).1⟩

/-- C2 counterexample: on a database with no task rows, fetching a task
signals forbidden (403), not not-found (404) — the absent row makes the
access check fail before the 404 branch can be reached. -/
theorem missing_task_fetch_forbidden :
    getTask emptyDb "t1" "u1" = GetRes.err 403 ∧
    GetRes.err 403 ≠ GetRes.err 404 := by
  refine ⟨by decide, by decide⟩

/-- C2 as amended: a caller who is neither owner nor share recipient is
forbidden, an absent task row is likewise forbidden (its access check
fails), and a caller who passes the access check receives the row
joined with the owner's profile, comments, attachments, and shares. -/
theorem fetch_one_access (db : DB) (tid uid : String) :
    (canAccessTask db tid uid = false → getTask db tid uid = .err 403) ∧
    (findTask db tid = none → getTask db tid uid = .err 403) ∧
    (∀ t, findTask db tid = some t → canAccessTask db tid uid = true →
      getTask db tid uid = .ok
        { task := t
          owner := db.profiles.find? (fun p => p.id == t.user_id)
          comments := db.comments.filter (fun c => c.task_id == tid)
          attachments := db.attachments.filter (fun a => a.task_id == tid)
          shares := db.shares.filter (fun s => s.task_id == tid) }) := by
  refine ⟨?_, ?_, ?_⟩
  · intro h
    simp [getTask, h]
  · intro h
    have hacc : canAccessTask db tid uid = false := by
      simp [canAccessTask, h]
    simp [getTask, hacc]
  · intro t ht hacc
    simp [getTask, hacc, getTaskJoin, ht]

/-- Witness for C2 as amended: on the sample database an unrelated
caller is forbidden, and the owner receives the joined payload. -/
theorem fetch_one_access_witness :
    getTask sampleDb "t1" "u3" = GetRes.err 403 ∧
    getTask sampleDb "t1" "u1" = GetRes.ok
      { task := sampleTask
        owner := some alice
        comments := []
        attachments := []
        shares := [] } :=
  ⟨(fetch_one_access sampleDb "t1" "u3").1 (by decide),
   Eq.trans ((fetch_one_access sampleDb "t1" "u1").2.2 sampleTask
      (by decide) (by decide)) (by decide)⟩

/-- C3 (code bug): an update by the owner whose body carries an
explicit empty-string title is not rejected — the guard
`updateData.title && updateData.title === ""` is identically false —
and the handler instead updates the row, blanking the title and
returning 200. -/
theorem empty_title_update_not_rejected :
    (∀ u, emptyTitleCheck u = false) ∧
    patchTask sampleDb "t1" "u1" { emptyPatch with title := some (some "") } =
      (200, { sampleDb with tasks := [{ sampleTask with title := "" }] }) ∧
    (200 : Nat) ≠ 400 :=
  ⟨emptyTitleCheck_eq_false, by decide, by decide⟩

/-- C4 counterexample: a create request with the unknown status value
`done` is not defaulted to `todo`: the value is passed through to the
insert, the check constraint rejects it, and the handler returns 500
with no row inserted. -/
theorem unknown_status_not_defaulted :
    postTask sampleDb "u1" "t9"
      { emptyCreate with
        title := some (some "Buy milk")
        status := some (some "done") } =
      (500, sampleDb) ∧
    (500 : Nat) ≠ 201 :=
  ⟨by decide, by decide⟩

/-- C4 as amended: a missing or trim-empty title is rejected with 400
and nothing inserted; a falsy (absent, `null`, or empty-string) status
or priority is defaulted to `todo`/`medium`; any other value is passed
through to the insert, which succeeds exactly when the check
constraints accept the row and otherwise fails with 500. -/
theorem create_validation_and_defaults (db : DB) (uid newId : String)
    (b : CreateBody) :
    ((b.title = none ∨ b.title = some none) → postTask db uid newId b = (400, db)) ∧
    (∀ s, b.title = some (some s) → jsTrim s = "" →
      postTask db uid newId b = (400, db)) ∧
    (∀ s, b.title = some (some s) → jsTrim s ≠ "" →
      (jsTruthy b.status = false → (newTaskRow uid newId b s).status = some "todo") ∧
      (jsTruthy b.priority = false →
        (newTaskRow uid newId b s).priority = some "medium") ∧
      (∀ v, b.status = some (some v) → v ≠ "" →
        (newTaskRow uid newId b s).status = some v) ∧
      ((statusOk (newTaskRow uid newId b s).status &&
          priorityOk (newTaskRow uid newId b s).priority) = true →
        postTask db uid newId b =
          (201, { db with tasks := newTaskRow uid newId b s :: db.tasks })) ∧
      ((statusOk (newTaskRow uid newId b s).status &&
          priorityOk (newTaskRow uid newId b s).priority) = false →
        postTask db uid newId b = (500, db))) := by
  refine ⟨?_, ?_, ?_⟩
  · rintro (h | h) <;> simp [postTask, h]
  · intro s hs h
    simp [postTask, hs, h]
  · intro s hs h
    refine ⟨?_, ?_, ?_, ?_, ?_⟩
    · intro hst
      simp [newTaskRow, jsOrDefault_of_falsy _ _ hst]
    · intro hpr
      simp [newTaskRow, jsOrDefault_of_falsy _ _ hpr]
    · intro v hv hvne
      simp [newTaskRow, jsOrDefault, hv, hvne]
    · intro hok
      simp [postTask, hs, h, hok]
    · intro hbad
      simp [postTask, hs, h, hbad]

/-- Witness for C4 as amended: a missing title and a whitespace title
are rejected; with a valid title and no status/priority, the row is
inserted with the defaults. -/
theorem create_validation_and_defaults_witness :
    postTask sampleDb "u1" "t9" emptyCreate = (400, sampleDb) ∧
    postTask sampleDb "u1" "t9"
      { emptyCreate with title := some (some "  ") } = (400, sampleDb) ∧
    (newTaskRow "u1" "t9" { emptyCreate with title := some (some "Buy milk") }
      "Buy milk").status = some "todo" ∧
    postTask sampleDb "u1" "t9" { emptyCreate with title := some (some "Buy milk") } =
      (201, { sampleDb with
              tasks := newTaskRow "u1" "t9"
                { emptyCreate with title := some (some "Buy milk") } "Buy milk" ::
                  sampleDb.tasks }) :=
  ⟨(create_validation_and_defaults sampleDb "u1" "t9" emptyCreate).1 (Or.inl rfl),
   (create_validation_and_defaults sampleDb "u1" "t9"
      { emptyCreate with title := some (some "  ") }).2.1 "  " rfl (by decide),
   ((create_validation_and_defaults sampleDb "u1" "t9"
      { emptyCreate with title := some (some "Buy milk") }).2.2 "Buy milk" rfl
      (by decide)).1 (by decide),
   ((create_validation_and_defaults sampleDb "u1" "t9"
      { emptyCreate with title := some (some "Buy milk") }).2.2 "Buy milk" rfl
      (by decide)).2.2.2.1 (by decide)⟩

/-- C5 counterexample: a title sent as `null` is not cleared to `null`:
`title.trim()` throws on `null`, the handler returns 500, and the task
row is left untouched. -/
theorem null_title_update_errors :
    patchTask sampleDb "t1" "u1" { emptyPatch with title := some none } =
      (500, sampleDb) ∧
    (500 : Nat) ≠ 200 :=
  ⟨by decide, by decide⟩

/-- C5 as amended: for an owner's update whose title is not `null` and
whose status/priority pass the check constraints, the handler applies
exactly the fields present in the body — a nullable field sent as
`null` is cleared to `null`, every omitted field keeps its stored
value, the key and owner are untouched, and rows of other tasks are
untouched. -/
theorem patch_partial_update (db : DB) (tid uid : String) (b : PatchBody)
    (t : Task) (hfind : findTask db tid = some t) (howner : t.user_id = uid)
    (htitle : b.title ≠ some none)
    (hstat : statusOk (applyUpd b t).status = true)
    (hprio : priorityOk (applyUpd b t).priority = true) :
    patchTask db tid uid b =
      (200, { db with tasks := updatedTasks db tid b }) ∧
    findTask { db with tasks := updatedTasks db tid b } tid =
      some (applyUpd b t) ∧
    (b.description = some none → (applyUpd b t).description = none) ∧
    (b.status = some none → (applyUpd b t).status = none) ∧
    (b.priority = some none → (applyUpd b t).priority = none) ∧
    (b.due_date = some none → (applyUpd b t).due_date = none) ∧
    (b.category = some none → (applyUpd b t).category = none) ∧
    (b.title = none → (applyUpd b t).title = t.title) ∧
    (b.description = none → (applyUpd b t).description = t.description) ∧
    (b.status = none → (applyUpd b t).status = t.status) ∧
    (b.priority = none → (applyUpd b t).priority = t.priority) ∧
    (b.due_date = none → (applyUpd b t).due_date = t.due_date) ∧
    (b.category = none → (applyUpd b t).category = t.category) ∧
    (applyUpd b t).id = t.id ∧
    (applyUpd b t).user_id = t.user_id ∧
    (∀ r ∈ db.tasks, r.id ≠ tid → r ∈ updatedTasks db tid b) := by
  refine ⟨?_, ?_, ?_, ?_, ?_, ?_, ?_, ?_, ?_, ?_, ?_, ?_, ?_, rfl, rfl, ?_⟩
  · simp only [patchTask, hfind]
    rw [if_neg (by simp [howner])]
    rcases hb : b.title with _ | (_ | s)
    · simp only [emptyTitleCheck_eq_false, Bool.false_eq_true, if_false]
      rw [hstat, hprio]
      simp
    · exact absurd hb htitle
    · simp only [emptyTitleCheck_eq_false, Bool.false_eq_true, if_false]
      rw [hstat, hprio]
      simp
  · exact findTask_map_update db.tasks tid (applyUpd b)
      (fun r => applyUpd_id b r) t hfind
  · intro h
    simp [applyUpd, h, jsTrimOrNull]
  · intro h
    simp [applyUpd, h]
  · intro h
    simp [applyUpd, h]
  · intro h
    simp [applyUpd, h]
  · intro h
    simp [applyUpd, h]
  · intro h
    simp [applyUpd, h]
  · intro h
    simp [applyUpd, h]
  · intro h
    simp [applyUpd, h]
  · intro h
    simp [applyUpd, h]
  · intro h
    simp [applyUpd, h]
  · intro h
    simp [applyUpd, h]
  · intro r hr hne
    have hfix : (if (r.id == tid) = true then applyUpd b r else r) = r :=
      if_neg (by simp [hne])
    simp only [updatedTasks, List.mem_map]
    exact ⟨r, hr, hfix⟩

/-- A PATCH body fixture: set a new title and a valid status, clear the
description, leave everything else absent. -/
def clearDescPatch : PatchBody :=
  { emptyPatch with
    title := some (some "New")
    description := some none
    status := some (some "completed") }

/-- Witness for C5 as amended: on the sample database the owner's
update clears the description sent as `null` and succeeds. -/
theorem patch_partial_update_witness :
    (applyUpd clearDescPatch sampleTask).description = none ∧
    (applyUpd clearDescPatch sampleTask).due_date = sampleTask.due_date ∧
    patchTask sampleDb "t1" "u1" clearDescPatch =
      (200, { sampleDb with tasks := updatedTasks sampleDb "t1" clearDescPatch }) :=
  ⟨(patch_partial_update sampleDb "t1" "u1" clearDescPatch sampleTask
      (by decide) rfl (by decide) (by decide) (by decide)).2.2.1 rfl,
   (patch_partial_update sampleDb "t1" "u1" clearDescPatch sampleTask
      (by decide) rfl (by decide) (by decide) (by decide)).2.2.2.2.2.2.2.2.2.2.2.1 rfl,
   (patch_partial_update sampleDb "t1" "u1" clearDescPatch sampleTask
      (by decide) rfl (by decide) (by decide) (by decide)).1⟩

/-- C6: when the share-create handler is called by the task's owner and
the target email resolves to a profile, a target equal to the owner is
rejected with 400, an already existing (task, user) share is rejected
with 400, and in both cases the database — in particular the share
table — is unchanged. -/
theorem share_self_duplicate_rejected (db : DB) (tid uid newId e : String)
    (t : Task) (p : Profile)
    (hfind : findTask db tid = some t) (howner : t.user_id = uid) (he : e ≠ "")
    (hp : db.profiles.find? (fun q => q.email == e) = some p) :
    (p.id = uid → sharePost db tid uid newId (some (some e)) = (400, db)) ∧
    (hasShare db tid p.id = true →
      sharePost db tid uid newId (some (some e)) = (400, db)) := by
  constructor
  · intro hself
    simp [sharePost, hfind, hp, he, howner, hself]
  · intro hdup
    by_cases hself : p.id = uid
    · simp [sharePost, hfind, hp, he, howner, hself]
    · simp [sharePost, hfind, hp, he, howner, hself, hdup]

/-- Witness for C6: on the shared sample database, sharing with the
owner's own email and re-sharing with the already-shared user are both
rejected and leave the database unchanged. -/
theorem share_self_duplicate_rejected_witness :
    sharePost sharedDb "t1" "u1" "s9" (some (some "alice@example.com")) =
      (400, sharedDb) ∧
    sharePost sharedDb "t1" "u1" "s9" (some (some "bob@example.com")) =
      (400, sharedDb) :=
  ⟨(share_self_duplicate_rejected sharedDb "t1" "u1" "s9" "alice@example.com"
      sampleTask alice (by decide) rfl (by decide) (by decide)).1 rfl,
   (share_self_duplicate_rejected sharedDb "t1" "u1" "s9" "bob@example.com"
      sampleTask bob (by decide) rfl (by decide) (by decide)).2 (by decide)⟩

/-- C8: a missing or trim-empty query returns success with an empty
user list and no backend query; a non-empty query issues the backend
query and returns at most 10 profiles, each matching the query
case-insensitively on email and none of them the caller's own. -/
theorem user_search_spec (db : DB) (uid : String) (q : Option String) :
    (q = none → usersSearch db uid q = { code := 200, users := [], queried := false }) ∧
    (∀ s, q = some s → jsTrim s = "" →
      usersSearch db uid q = { code := 200, users := [], queried := false }) ∧
    (∀ s, q = some s → jsTrim s ≠ "" →
      (usersSearch db uid q).code = 200 ∧
      (usersSearch db uid q).queried = true ∧
      (usersSearch db uid q).users.length ≤ 10 ∧
      (∀ p ∈ (usersSearch db uid q).users,
        p.id ≠ uid ∧ ilikeContains p.email s = true)) := by
  refine ⟨?_, ?_, ?_⟩
  · rintro rfl
    rfl
  · rintro s rfl h
    simp [usersSearch, h]
  · rintro s rfl h
    have husers : (usersSearch db uid (some s)).users =
        (db.profiles.filter (fun p => ilikeContains p.email s && p.id != uid)).take 10 := by
      simp [usersSearch, h]
    refine ⟨by simp [usersSearch, h], by simp [usersSearch, h], ?_, ?_⟩
    · rw [husers]
      exact List.length_take_le 10 _
    · intro p hp
      rw [husers] at hp
      have hmem := List.take_subset 10 _ hp
      have hpred := (List.mem_filter.mp hmem).2
      simp only [Bool.and_eq_true, bne_iff_ne, ne_eq] at hpred
      exact ⟨hpred.2, hpred.1⟩

/-- Witness for C8: on the sample database, a missing and a whitespace
query return the empty result without querying, and the query `OB`
returns only matching profiles other than the caller's. -/
theorem user_search_spec_witness :
    usersSearch sampleDb "u1" none = { code := 200, users := [], queried := false } ∧
    usersSearch sampleDb "u1" (some " ") =
      { code := 200, users := [], queried := false } ∧
    (usersSearch sampleDb "u1" (some "OB")).queried = true ∧
    (∀ p ∈ (usersSearch sampleDb "u1" (some "OB")).users,
      p.id ≠ "u1" ∧ ilikeContains p.email "OB" = true) :=
  ⟨(user_search_spec sampleDb "u1" none).1 rfl,
   (user_search_spec sampleDb "u1" (some " ")).2.1 " " rfl (by decide),
   ((user_search_spec sampleDb "u1" (some "OB")).2.2 "OB" rfl (by decide)).2.1,
   ((user_search_spec sampleDb "u1" (some "OB")).2.2 "OB" rfl (by decide)).2.2.2⟩

end TaskManager
